import Mathlib

/-!
Verification of the Setup repository's SRS verifier (`src/setup/verifier.hpp`)
and the range-prep tool (`setup-tools/src/range-prep/main.cpp`).

Embedding conventions (discrete-log model of the libff pairing engine):
the two source groups G1 and G2 of the asymmetric pairing are cyclic of
prime order r, the order of the scalar field `FieldT = Fr`.  We represent a
group element of either source group by its discrete logarithm with respect
to that group's fixed generator, an element of the scalar field `F`:

  * `GroupT::zero()`, the identity (point at infinity), has log `0`;
  * `GroupT::one()`, the fixed generator, has log `1`;
  * point addition is addition of logs; scalar multiplication `P * s`
    is field multiplication of the log by `s`;
  * the pairing `e(a·G1, b·G2)` lands in the target group at exponent
    `a * b` (relative to the fixed target-group generator `e(G1, G2)`);
    `GT::one()`, the target identity, has exponent `0`, and the product of
    target elements (what `double_miller_loop` followed by
    `final_exponentiation` computes for a pair of pairings) adds exponents.

`FieldT::random_element()` is modelled by an explicit challenge stream,
a `List F` threaded through every function that draws randomness: a draw
takes the head (default `0` on an exhausted stream) and passes the tail on.

`scalar_multiplier.sqr()` is the in-place squaring of the running value
(the spec's §4.1 open issue describes exactly this reference behaviour).
-/

set_option linter.unusedSectionVars false

namespace Setup

variable {F : Type} [CommRing F] [DecidableEq F]

/-- The additive identity of a source group: libff `GroupT::zero()`,
the point at infinity, log `0`. -/
def groupZero : F := 0

/-- The fixed generator of a source group: libff `GroupT::one()`, log `1`. -/
def groupOne : F := 1

/-- Exponent (relative to the target-group generator) of one pairing
evaluation `e(a·G1, b·G2)`: one Miller loop plus final exponentiation. -/
def pairingExp (a b : F) : F := a * b

/-- `verifier.hpp` lines 12-17: a pair of accumulated group elements. -/
structure VerificationKey (F : Type) where
  lhs : F
  rhs : F
deriving DecidableEq

/-- The loop body of `same_ratio_preprocess` (lines 32-36), folded over the
listed indices.  State is `(scalar_multiplier, accumulator)`; each iteration
first squares the multiplier in place (`scalar_multiplier.sqr()`) and then
adds `g1_points[i] * scalar_multiplier` to the accumulator. -/
def preprocessFold (points : Nat → F) (st : F × F) (indices : List Nat) : F × F :=
  indices.foldl (fun st i => (st.1 * st.1, st.2 + points i * (st.1 * st.1))) st

/-- `verifier.hpp` lines 25-41, `same_ratio_preprocess`.  The C++ loop runs
`i = 1; i < polynomial_degree - 1`, i.e. over indices `1 .. degree-2`
(`List.range' 1 (degree - 1 - 1)`); `degree` is a `size_t`, and for
`degree = 0` the C++ bound `degree - 1` wraps around to `2^64 - 1` and the
loop reads far out of bounds (undefined behaviour), so this model is only
meaningful for `degree ≥ 1`, where the truncated `Nat` subtraction agrees
with the C++ bound.  After the loop one further `sqr()` happens, then
`key.rhs = accumulator + g1_points[degree-1] * scalar_multiplier` and
`key.lhs = accumulator + g1_points[0] * challenge`.  The sequence is a raw
pointer in C++, modelled as `points : Nat → F`.  Returns the key and the
remaining challenge stream (one `FieldT::random_element()` draw consumed). -/
def same_ratio_preprocess (points : Nat → F) (degree : Nat) (rand : List F) :
    VerificationKey F × List F :=
  let challenge := rand.headD 0
  let st := preprocessFold points (challenge, 0) (List.range' 1 (degree - 1 - 1))
  let m := st.1 * st.1
  (⟨st.2 + points 0 * challenge, st.2 + points (degree - 1) * m⟩, rand.tail)

/-- `verifier.hpp` lines 43-57, `same_ratio`.  The four operands are
precomputed, then `double_miller_loop(g1_lhs, g2_lhs, g1_rhs, g1_rhs)` is
evaluated — the fourth operand actually passed is `g1_rhs` again, not
`g2_rhs` — the product of the two pairings is final-exponentiated and
compared with `GT::one()` (exponent `0`). -/
def same_ratio (g1_key g2_key : VerificationKey F) : Bool :=
  decide (pairingExp g1_key.lhs g2_key.lhs + pairingExp g1_key.rhs g1_key.rhs = 0)

/-- The two source-group kinds of the asymmetric pairing. -/
inductive GroupKind
  | A
  | B
deriving DecidableEq

/-- In-memory size of a group element, as used by the `sizeof` comparison in
`validate_polynomial_evaluation`: an alt_bn128 G1 point holds three Fq
coordinates, a G2 point three Fq2 coordinates (twice the size). -/
def kindSize : GroupKind → Nat
  | .A => 96
  | .B => 192

/-- `verifier.hpp` lines 70-74: the comparator-side key, `delta.lhs =
comparator`, `delta.rhs = Group1T::one()` — the fixed generator constant
(log `1`), not the identity `zero()`. -/
def delta_key (comparator : F) : VerificationKey F :=
  ⟨comparator, groupOne⟩

/-- `verifier.hpp` lines 67-88, `validate_polynomial_evaluation`.  `kindX`
is the kind of `Group1T` (the evaluation sequence), `kindY` the kind of
`Group2T` (the comparator).  A key is built from the sequence, the
comparator-side key is `delta_key comparator`, and the compile-time branch
`wibble = sizeof(Group2T) > sizeof(Group1T)` decides the argument order of
`same_ratio` (first argument must be the G1-side key). -/
def validate_polynomial_evaluation (kindX kindY : GroupKind) (evaluation : Nat → F)
    (comparator : F) (degree : Nat) (rand : List F) : Bool × List F :=
  let kr := same_ratio_preprocess evaluation degree rand
  ((if kindSize kindY > kindSize kindX then
      same_ratio kr.1 (delta_key comparator)
    else
      same_ratio (delta_key comparator) kr.1), kr.2)

/-- `verifier.hpp` lines 110-120: the fifth, direct `same_ratio` check of
`validate_transcript`, with `g1_alpha_key = ⟨g1_x[0], g1_alpha_x[0]⟩` and
`g2_alpha_key = ⟨g2_alpha_x[0], g2_x[0]⟩`. -/
def fifth_check (g1_x g1_alpha_x g2_x g2_alpha_x : Nat → F) : Bool :=
  same_ratio ⟨g1_x 0, g1_alpha_x 0⟩ ⟨g2_alpha_x 0, g2_x 0⟩

/-- `verifier.hpp` lines 91-123, `validate_transcript`.  `result` starts
`true` and each of the five checks is folded in with `&=` (bitwise and, no
short-circuit): each of the four `validate_polynomial_evaluation` calls
draws its own challenge from the stream unconditionally, and the fifth
check is the direct `same_ratio` call of `fifth_check`. -/
def validate_transcript (g1_x g1_alpha_x g2_x g2_alpha_x : Nat → F) (degree : Nat)
    (rand : List F) : Bool × List F :=
  let c1 := validate_polynomial_evaluation .A .B g1_x (g2_x 0) degree rand
  let c2 := validate_polynomial_evaluation .A .B g1_alpha_x (g2_x 0) degree c1.2
  let c3 := validate_polynomial_evaluation .B .A g2_x (g1_x 0) degree c2.2
  let c4 := validate_polynomial_evaluation .B .A g2_alpha_x (g1_x 0) degree c3.2
  (c1.1 && c2.1 && c3.1 && c4.1 && fifth_check g1_x g1_alpha_x g2_x g2_alpha_x, c4.2)

/-- `range-prep/main.cpp` lines 5-33, the pure core of `transform`: given
the loaded generator polynomial (`degree + 1` scalars) and the loaded
`g1_x` transcript elements (`degree` of them), `G1::one()` — the fixed
generator — is inserted at the front of `g1_x`, and the two raw dumps
written are the full generator polynomial and the full extended `g1_x`
vector, returned here as (scalar records, GroupKind-A records). -/
def transform (generator_polynomial : List F) (g1_x : List F) : List F × List F :=
  (generator_polynomial, groupOne :: g1_x)

/-- Value of `scalar_multiplier` after `k` in-place `sqr()` updates starting
from the challenge `z`: the progression actually taken by the code. -/
def loopMultiplier (z : F) : Nat → F
  | 0 => z
  | k + 1 => loopMultiplier z k * loopMultiplier z k

/-- Modelled from the spec: the documented multiplier progression
`z, z², z³, …` — the multiplier after `k` updates of one multiplication by
the fixed challenge `z` each, i.e. the value `z^(k+1)` folded in loop
iteration `k` under the documented linear-power intent. -/
def linearMultiplier (z : F) (k : Nat) : F := z ^ (k + 1)

/-- Concrete sequences over `ZMod 5` used as counterexample inputs. -/
def onesF : Nat → ZMod 5 := fun _ => 1

/-- The all-identity sequence over `ZMod 5` (every element the point at
infinity, log `0`). -/
def zeroF : Nat → ZMod 5 := fun _ => 0

/-- Sequence over `ZMod 5` whose only nonzero entry is index 2 (log `1`,
the generator), isolating the multiplier folded with `seq[2]`. -/
def ptsC3 : Nat → ZMod 5 := fun i => if i = 2 then 1 else 0

/-- Helper: `loopMultiplier` started from `z * z` is `loopMultiplier` of `z`
one update later. -/
theorem loopMultiplier_sq (z : F) (k : Nat) :
    loopMultiplier (z * z) k = loopMultiplier z (k + 1) := by
  induction k with
  | zero => rfl
  | succ k ih => simp [loopMultiplier, ih]

/-- Helper: the multiplier component of the `same_ratio_preprocess` loop
state after folding a list of indices is the challenge squared in place
once per iteration, `loopMultiplier z l.length`. -/
theorem preprocessFold_multiplier (points : Nat → F) (z a : F) (l : List Nat) :
    (preprocessFold points (z, a) l).1 = loopMultiplier z l.length := by
  induction l generalizing z a with
  | nil => rfl
  | cons i l ih =>
      show (preprocessFold points (z * z, a + points i * (z * z)) l).1 = _
      rw [ih, loopMultiplier_sq]
      rfl

/-- Claim C1 (code bug): completeness fails on the code.  For the honest
GroupKind-A power sequence of the scalar `s = 1` over `ZMod 5` (every
`seq[i] = s^(i+1)·G_A`, log `1`), comparator `s·G_B` (log `1`), degree `2`
and challenge draw `z = 1`, `validate_polynomial_evaluation` returns
`false`, not `true`: the key built is `⟨z, z²⟩ = ⟨1, 1⟩` and `same_ratio`
evaluates `e(lhs, s·G_B)·e(rhs, rhs)` at exponent `1·1 + 1·1 = 2 ≠ 0`. -/
theorem completeness_fails_on_honest_input :
    validate_polynomial_evaluation .A .B onesF 1 2 ([1] : List (ZMod 5)) =
      (false, []) := by
  decide

/-- Claim C2 (code bug): `same_ratio` is not the documented pairing
equality.  For the GroupKind-A key `⟨G_A, G_A⟩` and GroupKind-B key
`⟨G_B, G_B⟩` (all logs `1` over `ZMod 5`) the documented relation
`e(g1.lhs, g2.lhs) = e(g1.rhs, g2.rhs)` holds, yet `same_ratio` returns
`false`, because the fourth Miller-loop operand is `g1_rhs` again and the
un-negated pairing product `e(lhs,lhs)·e(rhs,rhs)` is compared with
`GT::one()`: exponent `1·1 + 1·1 = 2 ≠ 0`. -/
theorem same_ratio_rejects_equal_ratio_keys :
    same_ratio (⟨1, 1⟩ : VerificationKey (ZMod 5)) ⟨1, 1⟩ = false ∧
    pairingExp ((⟨1, 1⟩ : VerificationKey (ZMod 5)).lhs)
        ((⟨1, 1⟩ : VerificationKey (ZMod 5)).lhs) =
      pairingExp ((⟨1, 1⟩ : VerificationKey (ZMod 5)).rhs)
        ((⟨1, 1⟩ : VerificationKey (ZMod 5)).rhs) := by
  decide

/-- Claim C3 (code bug): the running multiplier is advanced by in-place
squaring, not by one multiplication by the fixed challenge per update.
In general the multiplier after `k` updates is `loopMultiplier z k`
(`z^(2^k)`); concretely, for the sequence `ptsC3` (only `seq[2] ≠ 0`),
degree `3` and challenge `z = 2` over `ZMod 5`, the key's `rhs` is
`seq[2] * loopMultiplier z 2 = 2^4 = 1`, while the claimed linear
progression would fold `seq[2]` with `linearMultiplier z 2 = z³ = 3`. -/
theorem multiplier_progression_squares :
    (∀ (z a : ZMod 5) (points : Nat → ZMod 5) (l : List Nat),
        (preprocessFold points (z, a) l).1 = loopMultiplier z l.length) ∧
    (same_ratio_preprocess ptsC3 3 ([2] : List (ZMod 5))).1.rhs =
      loopMultiplier 2 2 ∧
    loopMultiplier (2 : ZMod 5) 2 ≠ linearMultiplier 2 2 :=
  ⟨fun z a points l => preprocessFold_multiplier points z a l, by decide, by decide⟩

/-- Claim C4 (code bug): the batched discrete-log relation fails for the
built key.  For the honest power sequence of `s = 1` over `ZMod 5`
(`seq[i] = 1`), degree `2` and challenge `z = 2`, `same_ratio_preprocess`
builds `⟨lhs, rhs⟩ = ⟨z·s, z²·s²⟩ = ⟨2, 4⟩`, and `rhs = 4 ≠ 2 = s * lhs`:
the shared accumulator plus squared multiplier make `rhs = z·s·lhs`, not
`s·lhs`, contradicting the documented `A*x = B` relation. -/
theorem preprocess_key_ratio_fails :
    (same_ratio_preprocess onesF 2 ([2] : List (ZMod 5))).1 =
      (⟨2, 4⟩ : VerificationKey (ZMod 5)) ∧
    (same_ratio_preprocess onesF 2 ([2] : List (ZMod 5))).1.rhs ≠
      1 * (same_ratio_preprocess onesF 2 ([2] : List (ZMod 5))).1.lhs := by
  decide

/-- Claim C5 (confirmed): `validate_transcript` is exactly the conjunction
of its five sub-checks, each evaluated unconditionally on its own challenge
draw at a fixed position of the stream (`&=` is a bitwise and, no
short-circuit): the result equals the five-way `&&` of the four
`validate_polynomial_evaluation` calls — each consuming exactly one draw,
at stream offsets 0, 1, 2 and 3 regardless of earlier outcomes — and the
direct `fifth_check`, and the stream returned has exactly four draws
consumed whatever the check outcomes are. -/
theorem validate_transcript_all_five_unconditional
    (g1_x g1_alpha_x g2_x g2_alpha_x : Nat → F) (degree : Nat) (rand : List F) :
    validate_transcript g1_x g1_alpha_x g2_x g2_alpha_x degree rand =
      ((validate_polynomial_evaluation .A .B g1_x (g2_x 0) degree rand).1 &&
        (validate_polynomial_evaluation .A .B g1_alpha_x (g2_x 0) degree
          rand.tail).1 &&
        (validate_polynomial_evaluation .B .A g2_x (g1_x 0) degree
          rand.tail.tail).1 &&
        (validate_polynomial_evaluation .B .A g2_alpha_x (g1_x 0) degree
          rand.tail.tail.tail).1 &&
        fifth_check g1_x g1_alpha_x g2_x g2_alpha_x,
       rand.tail.tail.tail.tail) := rfl

/-- Claim C6 (code bug): the fifth check of `validate_transcript` is indeed
the direct `same_ratio` call on `⟨g1_x[0], g1_alpha_x[0]⟩` and
`⟨g2_alpha_x[0], g2_x[0]⟩`, but it does not pass exactly when
`e(g_A_x[0], g_B_alpha_x[0]) = e(g_A_alpha_x[0], g_B_x[0])`: at the
all-generator transcript (all four zeroth elements of log `1` over
`ZMod 5`) the pairing equality holds yet the check returns `false`, the
duplicated `g1_rhs` operand making it compare `1·1 + 1·1 = 2` with `0`. -/
theorem fifth_check_rejects_equal_pairings :
    (∀ g1_x g1_alpha_x g2_x g2_alpha_x : Nat → ZMod 5,
        fifth_check g1_x g1_alpha_x g2_x g2_alpha_x =
          same_ratio ⟨g1_x 0, g1_alpha_x 0⟩ ⟨g2_alpha_x 0, g2_x 0⟩) ∧
    fifth_check onesF onesF onesF onesF = false ∧
    pairingExp (onesF 0) (onesF 0) = pairingExp (onesF 0) (onesF 0) :=
  ⟨fun _ _ _ _ => rfl, by decide, rfl⟩

/-- Claim C7 (counterexample): the comparator-side key's `rhs` is not the
identity element.  For comparator `3` over `ZMod 5`, the key built by
lines 73-74 is `⟨3, 1⟩` — its `rhs` is the fixed generator `one()`
(log `1`), not the identity `zero()` (log `0`). -/
theorem delta_key_rhs_not_identity :
    (delta_key (3 : ZMod 5)).rhs ≠ (groupZero : ZMod 5) := by
  decide

/-- Claim C7 (amended, proved): for every comparator and every input,
`validate_polynomial_evaluation` builds its second (comparator-side)
VerificationKey with `lhs` the comparator and `rhs` the fixed group
generator constant `one()` (written `Group1T::one()` in the source), and
feeds it to `same_ratio` on the side selected by the size comparison. -/
theorem second_key_lhs_comparator_rhs_generator (kindX kindY : GroupKind)
    (evaluation : Nat → F) (comparator : F) (degree : Nat) (rand : List F) :
    validate_polynomial_evaluation kindX kindY evaluation comparator degree rand =
      ((if kindSize kindY > kindSize kindX then
          same_ratio (same_ratio_preprocess evaluation degree rand).1
            ⟨comparator, groupOne⟩
        else
          same_ratio (⟨comparator, groupOne⟩ : VerificationKey F)
            (same_ratio_preprocess evaluation degree rand).1),
       (same_ratio_preprocess evaluation degree rand).2) := rfl

/-- Claim C8 (code bug): a degenerate degree is silently folded into the
ordinary boolean result — no `DegenerateDegree` rejection exists.  At
degree `1` with the all-identity sequence (every `seq[i]` the point at
infinity, log `0`), comparator `G_B` (log `1`) and challenge `1` over
`ZMod 5`, `validate_polynomial_evaluation` runs its checks and returns
`true`: a degenerate degree reported as success.  (For degree `0` the C++
loop bound `degree - 1` underflows `size_t` and the loop reads out of
bounds — no guard runs first there either.) -/
theorem degenerate_degree_silent_success :
    validate_polynomial_evaluation .A .B zeroF 1 1 ([1] : List (ZMod 5)) =
      (true, []) := by
  decide

/-- Claim C9 (counterexample): the element prepended by `transform` is not
the group identity.  With generator polynomial `[0, 0]` and loaded `g1_x =
[2]` over `ZMod 5` (degree `1`), the GroupKind-A dump written is `[1, 2]` —
the fixed generator `one()` (log `1`) prepended — and not `[0, 2]`, the
identity `zero()` prepended. -/
theorem transform_prepends_generator_not_identity :
    (transform ([0, 0] : List (ZMod 5)) [2]).2 ≠
      (groupZero : ZMod 5) :: [2] := by
  decide

/-- Claim C9 (amended, proved): for every degree, if the loaded generator
polynomial has `degree + 1` scalars and the loaded transcript `g1_x` has
`degree` GroupKind-A elements, then `transform` writes a scalar dump of
exactly `degree + 1` field elements and a GroupKind-A dump of exactly
`degree + 1` fixed-size records, namely the fixed generator `one()`
prepended as element zero ahead of the loaded elements. -/
theorem transform_counts_and_generator_head (degree : Nat)
    (generator_polynomial g1_x : List F)
    (h1 : generator_polynomial.length = degree + 1)
    (h2 : g1_x.length = degree) :
    (transform generator_polynomial g1_x).1.length = degree + 1 ∧
    (transform generator_polynomial g1_x).2 = groupOne :: g1_x ∧
    (transform generator_polynomial g1_x).2.length = degree + 1 := by
  refine ⟨h1, rfl, ?_⟩
  simp [transform, h2]

/-- Witness for C9's amended theorem at degree `1`, generator polynomial
`[0, 0]` and `g1_x = [2]` over `ZMod 5`. -/
theorem transform_counts_witness :
    (transform ([0, 0] : List (ZMod 5)) [2]).1.length = 1 + 1 ∧
    (transform ([0, 0] : List (ZMod 5)) [2]).2 = groupOne :: [2] ∧
    (transform ([0, 0] : List (ZMod 5)) [2]).2.length = 1 + 1 :=
  transform_counts_and_generator_head 1 [0, 0] [2] rfl rfl

/-- Claim C10 (confirmed): `same_ratio` never consumes `g2_key.rhs` — the
fourth Miller-loop operand passed is `g1_rhs` again — so replacing
`g2_key.rhs` by any alternative value `r`, all other operands equal,
yields the same boolean. -/
theorem same_ratio_ignores_g2_rhs (g1_key g2_key : VerificationKey F) (r : F) :
    same_ratio g1_key ⟨g2_key.lhs, r⟩ = same_ratio g1_key g2_key := rfl

end Setup
